import Mathlib

/-!
Shallow embedding of the Nudge break-reminder front-end logic.

Source files embedded:
* `src/settings.js` — the settings window: `loadSettings` reads the three
  persisted keys with per-key defaults, `saveSettings` validates the parsed
  interval/duration inputs, writes the three keys to the Store, commits,
  toggles OS autostart (non-fatal on failure) and then asks the backend to
  restart the reminder timer, reporting a status message at each exit.
* `src/main.js` — the overlay window: fetches the overlay duration from the
  backend (falling back to the hard-coded default 20 on any failure), then
  runs a one-second countdown that decrements `timeLeft`, displays a
  progress percentage `(timeLeft / duration) * 100`, and on reaching zero
  clears the interval and requests the window close; the skip button clears
  the interval and requests the window close unconditionally.

External fallible calls (`store.set`, `store.save`, autostart
`enable`/`disable`, `invoke('restart_timer')`) are modelled by an
environment record in which each call either succeeds or throws with a
message, mirroring the `try`/`catch` structure of the JavaScript.
-/

namespace Nudge

/-- The persisted key/value settings store (`settings.json`), restricted to
the three keys the code touches; a `none` field is an absent key
(`store.get` returns `undefined`, which `??` replaces by the default). -/
structure Store where
  intervalMinutes : Option Int
  overlayDurationSeconds : Option Int
  autoStart : Option Bool
deriving Repr, DecidableEq

/-- The settings triple as shown in the settings form after `loadSettings`:
the interval input, the duration input and the autostart checkbox. -/
structure ReminderSettings where
  interval : Int
  duration : Int
  autoStart : Bool
deriving Repr, DecidableEq

/-- `loadSettings` from `src/settings.js` lines 41-61: each key is read from
the store and an absent key is independently replaced by its default via
`?? 20`, `?? 20`, `?? false`. -/
def loadSettings (st : Store) : ReminderSettings :=
  { interval := st.intervalMinutes.getD 20
    duration := st.overlayDurationSeconds.getD 20
    autoStart := st.autoStart.getD false }

/-- The status message `saveSettings` reports through `showStatus`:
the two inline validation errors, the generic catch-all error of the
surrounding `try`/`catch`, and the success message. -/
inductive Status where
  | intervalRange
  | durationRange
  | saveError (msg : String)
  | success
deriving Repr, DecidableEq

/-- The literal text passed to `showStatus` for each status. -/
def statusText : Status → String
  | .intervalRange => "Interval must be between 1-180 minutes"
  | .durationRange => "Duration must be between 5-300 seconds"
  | .saveError m => "Error saving settings: " ++ m
  | .success => "Settings saved successfully!"

/-- Outcome of each fallible external call made by `saveSettings`:
`none` means the awaited call succeeds, `some m` means it throws an error
whose `message` is `m`. -/
structure SaveEnv where
  setIntervalErr : Option String
  setDurationErr : Option String
  setAutoStartErr : Option String
  commitErr : Option String
  autostartErr : Option String
  restartErr : Option String
deriving Repr, DecidableEq

/-- Everything observable about one run of `saveSettings`: the resulting
store contents, the status message shown, whether the autostart
`enable`/`disable` call was reached (and which), whether its failure was
warned about, and whether `invoke('restart_timer')` was issued. -/
structure SaveOutcome where
  store : Store
  status : Status
  autostartAttempt : Option Bool
  autostartWarned : Bool
  restartInvoked : Bool
deriving Repr, DecidableEq

/-- `saveSettings` from `src/settings.js` lines 64-115.  The two inputs are
the `parseInt` results of the interval and duration fields (`none` models
`NaN`, from empty or non-numeric text); `checked` is the autostart
checkbox.  The control flow mirrors the source: validate interval, validate
duration, three `store.set` calls, `store.save()`, the inner `try`/`catch`
around `enable()`/`disable()`, then `invoke('restart_timer')`; any throw
outside the inner `try` lands in the outer `catch`, which shows
`'Error saving settings: ' + error.message`. -/
def saveSettings (st : Store) (intervalParsed durationParsed : Option Int)
    (checked : Bool) (env : SaveEnv) : SaveOutcome :=
  match intervalParsed with
  | none => ⟨st, .intervalRange, none, false, false⟩
  | some interval =>
  if interval < 1 ∨ 180 < interval then ⟨st, .intervalRange, none, false, false⟩
  else
  match durationParsed with
  | none => ⟨st, .durationRange, none, false, false⟩
  | some duration =>
  if duration < 5 ∨ 300 < duration then ⟨st, .durationRange, none, false, false⟩
  else
  match env.setIntervalErr with
  | some m => ⟨st, .saveError m, none, false, false⟩
  | none =>
  let st1 : Store := { st with intervalMinutes := some interval }
  match env.setDurationErr with
  | some m => ⟨st1, .saveError m, none, false, false⟩
  | none =>
  let st2 : Store := { st1 with overlayDurationSeconds := some duration }
  match env.setAutoStartErr with
  | some m => ⟨st2, .saveError m, none, false, false⟩
  | none =>
  let st3 : Store := { st2 with autoStart := some checked }
  match env.commitErr with
  | some m => ⟨st3, .saveError m, none, false, false⟩
  | none =>
  let warned := env.autostartErr.isSome
  match env.restartErr with
  | some m => ⟨st3, .saveError m, some checked, warned, true⟩
  | none => ⟨st3, .success, some checked, warned, true⟩

/-- Per-overlay countdown state from `src/main.js`: the fetched `duration`,
the current `timeLeft`, whether the `setInterval` timer is still armed
(true from `startCountdown` until `clearInterval`), and how many times
`closeWindow()` has been invoked. -/
structure OverlayState where
  duration : Int
  timeLeft : Int
  intervalActive : Bool
  closeRequests : Nat
deriving Repr, DecidableEq

/-- State right after `startCountdown()` runs with a given duration:
`timeLeft = duration`, the interval timer armed, no close requested yet. -/
def overlayStart (d : Int) : OverlayState :=
  ⟨d, d, true, 0⟩

/-- One firing of the `setInterval` callback (`src/main.js` lines 54-65):
if the interval has been cleared the callback no longer fires (identity);
otherwise `timeLeft--`, and when the new value is `<= 0` the interval is
cleared and `closeWindow()` is called. -/
def tick (s : OverlayState) : OverlayState :=
  if s.intervalActive then
    let t := s.timeLeft - 1
    if t ≤ 0 then ⟨s.duration, t, false, s.closeRequests + 1⟩
    else ⟨s.duration, t, true, s.closeRequests⟩
  else s

/-- The skip-button click handler (`src/main.js` lines 84-88):
`clearInterval` (idempotent) and then `closeWindow()` unconditionally. -/
def skip (s : OverlayState) : OverlayState :=
  ⟨s.duration, s.timeLeft, false, s.closeRequests + 1⟩

/-- `n` elapsed seconds: `n` firings of the interval callback. -/
def runTicks : Nat → OverlayState → OverlayState
  | 0, s => s
  | n + 1, s => tick (runTicks n s)

/-- The displayed progress percentage `(timeLeft / duration) * 100`
(`src/main.js` line 58), over the rationals. -/
def progressPct (s : OverlayState) : ℚ :=
  ((s.timeLeft : ℚ) / (s.duration : ℚ)) * 100

/-- `init` from `src/main.js` lines 25-49: if the Tauri bridge is missing
or `invoke('get_overlay_duration')` throws, the countdown starts with the
defaults `duration = 20`, `timeLeft = 20` set at lines 20-21; on success it
starts with the fetched duration. -/
def overlayInit (bridgeAvailable : Bool) (fetched : Option Int) : OverlayState :=
  if bridgeAvailable then
    match fetched with
    | some d => overlayStart d
    | none => overlayStart 20
  else overlayStart 20

/-! ### Countdown characterization -/

/-- Once the interval timer has been cleared, the callback no longer fires:
a tick leaves the state unchanged. -/
theorem tick_inactive (s : OverlayState) (h : s.intervalActive = false) :
    tick s = s := by
  simp [tick, h]

/-- Iterated ticks on a cleared-interval state are the identity. -/
theorem runTicks_inactive (k : Nat) (s : OverlayState)
    (h : s.intervalActive = false) : runTicks k s = s := by
  induction k with
  | zero => rfl
  | succ k ih => rw [runTicks, ih, tick_inactive s h]

/-- Before the countdown reaches zero (`k < n` ticks), the state is
exactly `timeLeft = n - k`, interval still armed, no close requested. -/
theorem runTicks_counting (n k : Nat) (hk : k < n) :
    runTicks k (overlayStart n) = ⟨n, (n : Int) - k, true, 0⟩ := by
  induction k with
  | zero => simp [runTicks, overlayStart]
  | succ k ih =>
    have hk' : k < n := Nat.lt_of_succ_lt hk
    have hcast : (k : Int) + 1 < (n : Int) := by exact_mod_cast hk
    have h1 : ¬ ((n : Int) - (k : Int) - 1 ≤ 0) := by omega
    rw [runTicks, ih hk']
    simp only [tick, if_true, h1, if_false, OverlayState.mk.injEq]
    refine ⟨trivial, by push_cast; ring, trivial, trivial⟩

/-- At the `n`-th tick the countdown reaches zero, the interval is cleared
and `closeWindow` has been requested exactly once. -/
theorem runTicks_done (n : Nat) (hn : 0 < n) :
    runTicks n (overlayStart n) = ⟨n, 0, false, 1⟩ := by
  obtain ⟨m, rfl⟩ := Nat.exists_eq_succ_of_ne_zero hn.ne'
  rw [runTicks, runTicks_counting (m + 1) m (Nat.lt_succ_self m)]
  have h1 : ((m : Int) + 1) - (m : Int) - 1 ≤ 0 := by omega
  simp only [tick, if_true, Nat.cast_add, Nat.cast_one, h1, if_pos,
    OverlayState.mk.injEq]
  refine ⟨by push_cast; ring, by ring, trivial, trivial⟩

/-- After the countdown has completed, further ticks change nothing. -/
theorem runTicks_after_done (n k : Nat) (hn : 0 < n) (hk : n ≤ k) :
    runTicks k (overlayStart n) = ⟨n, 0, false, 1⟩ := by
  obtain ⟨j, rfl⟩ := Nat.exists_eq_add_of_le hk
  induction j with
  | zero => simpa using runTicks_done n hn
  | succ j ih =>
    have : n + (j + 1) = (n + j) + 1 := rfl
    rw [this, runTicks, ih (Nat.le_add_right n j), tick_inactive _ rfl]

/-- Unfolding `progressPct` on a literal state. -/
theorem progressPct_mk (d t : Int) (a : Bool) (c : Nat) :
    progressPct ⟨d, t, a, c⟩ = ((t : ℚ) / (d : ℚ)) * 100 := rfl

/-! ### Overlay claims -/

/-- Claim C4: for a countdown started with duration `n > 0`, after exactly
`n` one-second ticks `timeLeft = 0`, the displayed progress is `0`, the
close routine has fired exactly once, and the displayed progress is never
negative at any tick. -/
theorem countdown_completes (n : Nat) (hn : 0 < n) :
    (runTicks n (overlayStart n)).timeLeft = 0 ∧
    progressPct (runTicks n (overlayStart n)) = 0 ∧
    (runTicks n (overlayStart n)).closeRequests = 1 ∧
    ∀ k : Nat, 0 ≤ progressPct (runTicks k (overlayStart n)) := by
  have hfin := runTicks_done n hn
  refine ⟨by rw [hfin], by rw [hfin]; simp [progressPct], by rw [hfin], ?_⟩
  intro k
  rcases lt_or_ge k n with hk | hk
  · rw [runTicks_counting n k hk, progressPct_mk]
    have h1 : (0 : ℚ) ≤ (((n : Int) - (k : Int) : Int) : ℚ) := by
      push_cast
      have : (k : ℚ) ≤ (n : ℚ) := by exact_mod_cast hk.le
      linarith
    have h2 : (0 : ℚ) ≤ (((n : Nat) : Int) : ℚ) := by push_cast; positivity
    exact mul_nonneg (div_nonneg h1 h2) (by norm_num)
  · rw [runTicks_after_done n k hn hk, progressPct_mk]
    norm_num

/-- Claim C4, witnessed at the default duration 20. -/
theorem countdown_completes_witness :
    0 < 20 ∧
    ((runTicks 20 (overlayStart 20)).timeLeft = 0 ∧
     progressPct (runTicks 20 (overlayStart 20)) = 0 ∧
     (runTicks 20 (overlayStart 20)).closeRequests = 1 ∧
     ∀ k : Nat, 0 ≤ progressPct (runTicks k (overlayStart 20))) :=
  ⟨by norm_num, countdown_completes 20 (by norm_num)⟩

/-- Claim C3, counterexample: after the countdown naturally reaches zero
(the close routine has fired once and the interval is cleared), a skip
press runs `clearInterval` (a no-op) and then calls `closeWindow()`
unconditionally, issuing a second close request — so a subsequent close
trigger is not a no-op as claimed. -/
theorem skip_after_timeout_not_noop :
    (runTicks 20 (overlayStart 20)).closeRequests = 1 ∧
    (runTicks 20 (overlayStart 20)).intervalActive = false ∧
    (skip (runTicks 20 (overlayStart 20))).closeRequests = 2 := by
  decide

/-- Claim C3 (amended): once the close routine has been triggered by the
countdown reaching zero, no further tick changes the state (so
`remainingSeconds` stays at 0 and is never decremented below zero); a
subsequent skip press leaves `timeLeft` at 0 and the interval cleared,
but does issue a second close request. -/
theorem closing_terminal (n : Nat) (hn : 0 < n) :
    (∀ s : OverlayState, s.intervalActive = false → tick s = s) ∧
    (∀ k : Nat, runTicks k (runTicks n (overlayStart n)) =
      runTicks n (overlayStart n)) ∧
    (runTicks n (overlayStart n)).timeLeft = 0 ∧
    (skip (runTicks n (overlayStart n))).timeLeft = 0 ∧
    (skip (runTicks n (overlayStart n))).intervalActive = false ∧
    (skip (runTicks n (overlayStart n))).closeRequests =
      (runTicks n (overlayStart n)).closeRequests + 1 := by
  have hfin := runTicks_done n hn
  refine ⟨tick_inactive, ?_, by rw [hfin], ?_, ?_, ?_⟩
  · intro k
    rw [hfin]
    exact runTicks_inactive k _ rfl
  · rw [hfin]
    rfl
  · rw [hfin]
    rfl
  · rw [hfin]
    rfl

/-- Claim C3 (amended), witnessed at duration 20. -/
theorem closing_terminal_witness :
    0 < 20 ∧
    ((∀ s : OverlayState, s.intervalActive = false → tick s = s) ∧
     (∀ k : Nat, runTicks k (runTicks 20 (overlayStart 20)) =
       runTicks 20 (overlayStart 20)) ∧
     (runTicks 20 (overlayStart 20)).timeLeft = 0 ∧
     (skip (runTicks 20 (overlayStart 20))).timeLeft = 0 ∧
     (skip (runTicks 20 (overlayStart 20))).intervalActive = false ∧
     (skip (runTicks 20 (overlayStart 20))).closeRequests =
       (runTicks 20 (overlayStart 20)).closeRequests + 1) :=
  ⟨by norm_num, closing_terminal 20 (by norm_num)⟩

/-- Claim C8: if the Tauri bridge is unavailable or the duration fetch
throws, the overlay still starts its countdown, with the hardcoded default
duration of 20 seconds. -/
theorem overlayInit_fallback (bridge : Bool) (fetched : Option Int)
    (h : bridge = false ∨ fetched = none) :
    overlayInit bridge fetched = overlayStart 20 ∧
    (overlayInit bridge fetched).duration = 20 ∧
    (overlayInit bridge fetched).timeLeft = 20 ∧
    (overlayInit bridge fetched).intervalActive = true := by
  rcases h with h | h
  · subst h
    simp [overlayInit, overlayStart]
  · subst h
    cases bridge <;> simp [overlayInit, overlayStart]

/-- Claim C8, witnessed with the bridge unavailable. -/
theorem overlayInit_fallback_witness :
    (false = false ∨ (some (7 : Int)) = none) ∧
    (overlayInit false (some 7) = overlayStart 20 ∧
     (overlayInit false (some 7)).duration = 20 ∧
     (overlayInit false (some 7)).timeLeft = 20 ∧
     (overlayInit false (some 7)).intervalActive = true) :=
  ⟨Or.inl rfl, overlayInit_fallback false (some 7) (Or.inl rfl)⟩

/-! ### Settings claims -/

/-- Claim C1: for in-range interval and duration, with the store and the
restart call not throwing, `saveSettings` reports success, the store holds
exactly the three saved keys, a subsequent `loadSettings` returns exactly
the saved values, and the timer restart was requested. -/
theorem save_then_load_roundtrip (st : Store) (i d : Int) (c : Bool)
    (env : SaveEnv)
    (hi1 : 1 ≤ i) (hi2 : i ≤ 180) (hd1 : 5 ≤ d) (hd2 : d ≤ 300)
    (h1 : env.setIntervalErr = none) (h2 : env.setDurationErr = none)
    (h3 : env.setAutoStartErr = none) (h4 : env.commitErr = none)
    (h6 : env.restartErr = none) :
    (saveSettings st (some i) (some d) c env).status = .success ∧
    (saveSettings st (some i) (some d) c env).store =
      ⟨some i, some d, some c⟩ ∧
    loadSettings (saveSettings st (some i) (some d) c env).store =
      ⟨i, d, c⟩ ∧
    (saveSettings st (some i) (some d) c env).restartInvoked = true := by
  have hiv : ¬ (i < 1 ∨ 180 < i) := by omega
  have hdv : ¬ (d < 5 ∨ 300 < d) := by omega
  simp [saveSettings, hiv, hdv, h1, h2, h3, h4, h6, loadSettings]

/-- Claim C1, witnessed at the spec's scenario `{45, 300, false}`. -/
theorem save_then_load_roundtrip_witness :
    ((1 : Int) ≤ 45 ∧ (45 : Int) ≤ 180 ∧ (5 : Int) ≤ 300 ∧
      (300 : Int) ≤ 300) ∧
    ((saveSettings ⟨some 20, some 20, some false⟩ (some 45) (some 300) false
        ⟨none, none, none, none, none, none⟩).status = .success ∧
     (saveSettings ⟨some 20, some 20, some false⟩ (some 45) (some 300) false
        ⟨none, none, none, none, none, none⟩).store =
       ⟨some 45, some 300, some false⟩ ∧
     loadSettings (saveSettings ⟨some 20, some 20, some false⟩ (some 45)
        (some 300) false ⟨none, none, none, none, none, none⟩).store =
       ⟨45, 300, false⟩ ∧
     (saveSettings ⟨some 20, some 20, some false⟩ (some 45) (some 300) false
        ⟨none, none, none, none, none, none⟩).restartInvoked = true) :=
  ⟨by norm_num,
   save_then_load_roundtrip ⟨some 20, some 20, some false⟩ 45 300 false
     ⟨none, none, none, none, none, none⟩ (by norm_num) (by norm_num)
     (by norm_num) (by norm_num) rfl rfl rfl rfl rfl⟩

/-- Claim C2: when the parsed interval or duration is out of range,
`saveSettings` leaves the store untouched (so a subsequent `loadSettings`
is unchanged), never reaches the autostart or restart calls, and reports
the inline validation message naming the offending field and its range. -/
theorem save_validation_rejects (st : Store) (i d : Int) (c : Bool)
    (env : SaveEnv)
    (h : (i < 1 ∨ 180 < i) ∨ (d < 5 ∨ 300 < d)) :
    (saveSettings st (some i) (some d) c env).store = st ∧
    loadSettings (saveSettings st (some i) (some d) c env).store =
      loadSettings st ∧
    (saveSettings st (some i) (some d) c env).restartInvoked = false ∧
    (saveSettings st (some i) (some d) c env).autostartAttempt = none ∧
    (((saveSettings st (some i) (some d) c env).status = .intervalRange ∧
        (i < 1 ∨ 180 < i) ∧
        statusText .intervalRange =
          "Interval must be between 1-180 minutes") ∨
     ((saveSettings st (some i) (some d) c env).status = .durationRange ∧
        (d < 5 ∨ 300 < d) ∧
        statusText .durationRange =
          "Duration must be between 5-300 seconds")) := by
  by_cases hi : i < 1 ∨ 180 < i
  · simp [saveSettings, hi, statusText]
  · have hd : d < 5 ∨ 300 < d := by tauto
    simp [saveSettings, hi, hd, statusText]

/-- Claim C2, witnessed at the spec's scenario `{200, 30, true}`. -/
theorem save_validation_rejects_witness :
    (((200 : Int) < 1 ∨ (180 : Int) < 200) ∨
      ((30 : Int) < 5 ∨ (300 : Int) < 30)) ∧
    ((saveSettings ⟨some 20, some 20, some false⟩ (some 200) (some 30) true
        ⟨none, none, none, none, none, none⟩).store =
       ⟨some 20, some 20, some false⟩ ∧
     loadSettings (saveSettings ⟨some 20, some 20, some false⟩ (some 200)
        (some 30) true ⟨none, none, none, none, none, none⟩).store =
       loadSettings ⟨some 20, some 20, some false⟩ ∧
     (saveSettings ⟨some 20, some 20, some false⟩ (some 200) (some 30) true
        ⟨none, none, none, none, none, none⟩).restartInvoked = false ∧
     (saveSettings ⟨some 20, some 20, some false⟩ (some 200) (some 30) true
        ⟨none, none, none, none, none, none⟩).autostartAttempt = none ∧
     (((saveSettings ⟨some 20, some 20, some false⟩ (some 200) (some 30) true
          ⟨none, none, none, none, none, none⟩).status = .intervalRange ∧
         ((200 : Int) < 1 ∨ (180 : Int) < 200) ∧
         statusText .intervalRange =
           "Interval must be between 1-180 minutes") ∨
      ((saveSettings ⟨some 20, some 20, some false⟩ (some 200) (some 30) true
          ⟨none, none, none, none, none, none⟩).status = .durationRange ∧
         ((30 : Int) < 5 ∨ (300 : Int) < 30) ∧
         statusText .durationRange =
           "Duration must be between 5-300 seconds"))) :=
  ⟨by norm_num,
   save_validation_rejects ⟨some 20, some 20, some false⟩ 200 30 true
     ⟨none, none, none, none, none, none⟩ (by norm_num)⟩

/-- Claim C5: a throw from the autostart `enable`/`disable` call is caught
by the inner `try`/`catch` and only warned about: the overall save still
reports success, the settings were already committed to the store, the
autostart call was attempted, and the timer restart still happens. -/
theorem autostart_failure_nonfatal (st : Store) (i d : Int) (c : Bool)
    (env : SaveEnv) (m : String)
    (hi1 : 1 ≤ i) (hi2 : i ≤ 180) (hd1 : 5 ≤ d) (hd2 : d ≤ 300)
    (h1 : env.setIntervalErr = none) (h2 : env.setDurationErr = none)
    (h3 : env.setAutoStartErr = none) (h4 : env.commitErr = none)
    (h5 : env.autostartErr = some m) (h6 : env.restartErr = none) :
    (saveSettings st (some i) (some d) c env).status = .success ∧
    (saveSettings st (some i) (some d) c env).store =
      ⟨some i, some d, some c⟩ ∧
    (saveSettings st (some i) (some d) c env).autostartAttempt = some c ∧
    (saveSettings st (some i) (some d) c env).autostartWarned = true ∧
    (saveSettings st (some i) (some d) c env).restartInvoked = true := by
  have hiv : ¬ (i < 1 ∨ 180 < i) := by omega
  have hdv : ¬ (d < 5 ∨ 300 < d) := by omega
  simp [saveSettings, hiv, hdv, h1, h2, h3, h4, h5, h6]

/-- Claim C5, witnessed with a failing autostart call. -/
theorem autostart_failure_nonfatal_witness :
    ((1 : Int) ≤ 45 ∧ (45 : Int) ≤ 180 ∧ (5 : Int) ≤ 30 ∧
      (30 : Int) ≤ 300) ∧
    ((saveSettings ⟨none, none, none⟩ (some 45) (some 30) true
        ⟨none, none, none, none, some "denied", none⟩).status = .success ∧
     (saveSettings ⟨none, none, none⟩ (some 45) (some 30) true
        ⟨none, none, none, none, some "denied", none⟩).store =
       ⟨some 45, some 30, some true⟩ ∧
     (saveSettings ⟨none, none, none⟩ (some 45) (some 30) true
        ⟨none, none, none, none, some "denied", none⟩).autostartAttempt =
       some true ∧
     (saveSettings ⟨none, none, none⟩ (some 45) (some 30) true
        ⟨none, none, none, none, some "denied", none⟩).autostartWarned =
       true ∧
     (saveSettings ⟨none, none, none⟩ (some 45) (some 30) true
        ⟨none, none, none, none, some "denied", none⟩).restartInvoked =
       true) :=
  ⟨by norm_num,
   autostart_failure_nonfatal ⟨none, none, none⟩ 45 30 true
     ⟨none, none, none, none, some "denied", none⟩ "denied" (by norm_num)
     (by norm_num) (by norm_num) (by norm_num) rfl rfl rfl rfl rfl rfl⟩

/-- Claim C6: `invoke('restart_timer')` is reached only when validation
passed and every store write and the commit succeeded, and at that point
the store already holds the validated values. -/
theorem rearm_only_after_commit (st : Store) (ip dp : Option Int) (c : Bool)
    (env : SaveEnv)
    (h : (saveSettings st ip dp c env).restartInvoked = true) :
    env.setIntervalErr = none ∧ env.setDurationErr = none ∧
    env.setAutoStartErr = none ∧ env.commitErr = none ∧
    ∃ i d : Int, ip = some i ∧ dp = some d ∧
      1 ≤ i ∧ i ≤ 180 ∧ 5 ≤ d ∧ d ≤ 300 ∧
      (saveSettings st ip dp c env).store = ⟨some i, some d, some c⟩ := by
  cases ip with
  | none => simp [saveSettings] at h
  | some i =>
    by_cases hi : i < 1 ∨ 180 < i
    · simp [saveSettings, hi] at h
    · cases dp with
      | none => simp [saveSettings, hi] at h
      | some d =>
        by_cases hd : d < 5 ∨ 300 < d
        · simp [saveSettings, hi, hd] at h
        · cases h1 : env.setIntervalErr with
          | some m => simp [saveSettings, hi, hd, h1] at h
          | none =>
          cases h2 : env.setDurationErr with
          | some m => simp [saveSettings, hi, hd, h1, h2] at h
          | none =>
          cases h3 : env.setAutoStartErr with
          | some m => simp [saveSettings, hi, hd, h1, h2, h3] at h
          | none =>
          cases h4 : env.commitErr with
          | some m => simp [saveSettings, hi, hd, h1, h2, h3, h4] at h
          | none =>
          refine ⟨rfl, rfl, rfl, rfl, i, d, rfl, rfl, by omega, by omega,
            by omega, by omega, ?_⟩
          cases h6 : env.restartErr with
          | some m => simp [saveSettings, hi, hd, h1, h2, h3, h4, h6]
          | none => simp [saveSettings, hi, hd, h1, h2, h3, h4, h6]

/-- Claim C6, witnessed on a fault-free run that does invoke the restart. -/
theorem rearm_only_after_commit_witness :
    (saveSettings ⟨none, none, none⟩ (some 45) (some 30) true
       ⟨none, none, none, none, none, none⟩).restartInvoked = true ∧
    ((⟨none, none, none, none, none, none⟩ : SaveEnv).setIntervalErr =
       none ∧
     (⟨none, none, none, none, none, none⟩ : SaveEnv).setDurationErr =
       none ∧
     (⟨none, none, none, none, none, none⟩ : SaveEnv).setAutoStartErr =
       none ∧
     (⟨none, none, none, none, none, none⟩ : SaveEnv).commitErr = none ∧
     ∃ i d : Int, (some (45 : Int)) = some i ∧ (some (30 : Int)) = some d ∧
       1 ≤ i ∧ i ≤ 180 ∧ 5 ≤ d ∧ d ≤ 300 ∧
       (saveSettings ⟨none, none, none⟩ (some 45) (some 30) true
          ⟨none, none, none, none, none, none⟩).store =
         ⟨some i, some d, some true⟩) :=
  ⟨rfl,
   rearm_only_after_commit ⟨none, none, none⟩ (some 45) (some 30) true
     ⟨none, none, none, none, none, none⟩ rfl⟩

/-- Claim C7, counterexample: a `restart_timer` failure after a successful
commit lands in the same outer `catch` as a persistence failure and is
shown with the very same status — `saveError` with the generic
`Error saving settings:` prefix — so it is not reported as an error
distinct from a persistence error. -/
theorem rearm_failure_not_distinct :
    (saveSettings ⟨none, none, none⟩ (some 45) (some 30) true
        ⟨none, none, none, none, none, some "boom"⟩).status =
      (saveSettings ⟨none, none, none⟩ (some 45) (some 30) true
        ⟨none, none, none, some "boom", none, none⟩).status ∧
    (saveSettings ⟨none, none, none⟩ (some 45) (some 30) true
        ⟨none, none, none, none, none, some "boom"⟩).status =
      .saveError "boom" ∧
    statusText (.saveError "boom") = "Error saving settings: boom" :=
  ⟨rfl, rfl, rfl⟩

/-- Claim C7 (amended): if `restart_timer` fails after a successful commit,
the failure is reported through the same catch-all `Error saving settings`
status as a persistence failure (distinct only in the appended message),
while the committed values do remain in the store unrolled-back, and a
subsequent `loadSettings` returns them. -/
theorem rearm_failure_keeps_settings (st : Store) (i d : Int) (c : Bool)
    (env : SaveEnv) (m : String)
    (hi1 : 1 ≤ i) (hi2 : i ≤ 180) (hd1 : 5 ≤ d) (hd2 : d ≤ 300)
    (h1 : env.setIntervalErr = none) (h2 : env.setDurationErr = none)
    (h3 : env.setAutoStartErr = none) (h4 : env.commitErr = none)
    (h6 : env.restartErr = some m) :
    (saveSettings st (some i) (some d) c env).store =
      ⟨some i, some d, some c⟩ ∧
    loadSettings (saveSettings st (some i) (some d) c env).store =
      ⟨i, d, c⟩ ∧
    (saveSettings st (some i) (some d) c env).status = .saveError m ∧
    statusText (saveSettings st (some i) (some d) c env).status =
      "Error saving settings: " ++ m ∧
    (saveSettings st (some i) (some d) c env).restartInvoked = true := by
  have hiv : ¬ (i < 1 ∨ 180 < i) := by omega
  have hdv : ¬ (d < 5 ∨ 300 < d) := by omega
  simp [saveSettings, hiv, hdv, h1, h2, h3, h4, h6, loadSettings,
    statusText]

/-- Claim C7 (amended), witnessed with a failing restart call. -/
theorem rearm_failure_keeps_settings_witness :
    ((1 : Int) ≤ 45 ∧ (45 : Int) ≤ 180 ∧ (5 : Int) ≤ 30 ∧
      (30 : Int) ≤ 300) ∧
    ((saveSettings ⟨none, none, none⟩ (some 45) (some 30) true
        ⟨none, none, none, none, none, some "boom"⟩).store =
       ⟨some 45, some 30, some true⟩ ∧
     loadSettings (saveSettings ⟨none, none, none⟩ (some 45) (some 30) true
        ⟨none, none, none, none, none, some "boom"⟩).store =
       ⟨45, 30, true⟩ ∧
     (saveSettings ⟨none, none, none⟩ (some 45) (some 30) true
        ⟨none, none, none, none, none, some "boom"⟩).status =
       .saveError "boom" ∧
     statusText (saveSettings ⟨none, none, none⟩ (some 45) (some 30) true
        ⟨none, none, none, none, none, some "boom"⟩).status =
       "Error saving settings: " ++ "boom" ∧
     (saveSettings ⟨none, none, none⟩ (some 45) (some 30) true
        ⟨none, none, none, none, none, some "boom"⟩).restartInvoked =
       true) :=
  ⟨by norm_num,
   rearm_failure_keeps_settings ⟨none, none, none⟩ 45 30 true
     ⟨none, none, none, none, none, some "boom"⟩ "boom" (by norm_num)
     (by norm_num) (by norm_num) (by norm_num) rfl rfl rfl rfl rfl⟩

/-- Claim C9: `loadSettings` defaults each of the three keys independently:
a missing `intervalMinutes` yields 20, a missing `overlayDurationSeconds`
yields 20, a missing `autoStart` yields `false`, while any present key is
returned as stored. -/
theorem loadSettings_defaults (st : Store) :
    (st.intervalMinutes = none → (loadSettings st).interval = 20) ∧
    (∀ v : Int, st.intervalMinutes = some v →
      (loadSettings st).interval = v) ∧
    (st.overlayDurationSeconds = none → (loadSettings st).duration = 20) ∧
    (∀ v : Int, st.overlayDurationSeconds = some v →
      (loadSettings st).duration = v) ∧
    (st.autoStart = none → (loadSettings st).autoStart = false) ∧
    (∀ v : Bool, st.autoStart = some v → (loadSettings st).autoStart = v) := by
  refine ⟨fun h => ?_, fun v h => ?_, fun h => ?_, fun v h => ?_,
    fun h => ?_, fun v h => ?_⟩ <;> simp [loadSettings, h]

/-- Claim C9, witnessed at the spec's example: a present `autoStart` with
an absent `intervalMinutes` still yields `intervalMinutes = 20`. -/
theorem loadSettings_defaults_witness :
    (loadSettings ⟨none, some 30, some true⟩).interval = 20 ∧
    (loadSettings ⟨none, some 30, some true⟩).duration = 30 ∧
    (loadSettings ⟨none, some 30, some true⟩).autoStart = true :=
  ⟨(loadSettings_defaults ⟨none, some 30, some true⟩).1 rfl,
   (loadSettings_defaults ⟨none, some 30, some true⟩).2.2.2.1 30 rfl,
   (loadSettings_defaults ⟨none, some 30, some true⟩).2.2.2.2.2 true rfl⟩

/-- Claim C10: if the interval or duration field does not parse to a number
(`parseInt` gives `NaN`), `saveSettings` stops at the `isNaN` check with
the corresponding inline validation message, leaves the store untouched,
and never reaches the autostart or restart calls. -/
theorem save_nan_rejected (st : Store) (ip dp : Option Int) (c : Bool)
    (env : SaveEnv)
    (h : ip = none ∨ dp = none) :
    (saveSettings st ip dp c env).store = st ∧
    loadSettings (saveSettings st ip dp c env).store = loadSettings st ∧
    (saveSettings st ip dp c env).restartInvoked = false ∧
    (saveSettings st ip dp c env).autostartAttempt = none ∧
    ((saveSettings st ip dp c env).status = .intervalRange ∨
     (saveSettings st ip dp c env).status = .durationRange) := by
  rcases h with h | h
  · subst h
    simp [saveSettings]
  · subst h
    cases ip with
    | none => simp [saveSettings]
    | some i =>
      by_cases hi : i < 1 ∨ 180 < i
      · simp [saveSettings, hi]
      · simp [saveSettings, hi]

/-- Claim C10, witnessed with a non-numeric interval field. -/
theorem save_nan_rejected_witness :
    ((none : Option Int) = none ∨ (some (30 : Int)) = none) ∧
    ((saveSettings ⟨some 20, some 20, some false⟩ none (some 30) true
        ⟨none, none, none, none, none, none⟩).store =
       ⟨some 20, some 20, some false⟩ ∧
     loadSettings (saveSettings ⟨some 20, some 20, some false⟩ none
        (some 30) true ⟨none, none, none, none, none, none⟩).store =
       loadSettings ⟨some 20, some 20, some false⟩ ∧
     (saveSettings ⟨some 20, some 20, some false⟩ none (some 30) true
        ⟨none, none, none, none, none, none⟩).restartInvoked = false ∧
     (saveSettings ⟨some 20, some 20, some false⟩ none (some 30) true
        ⟨none, none, none, none, none, none⟩).autostartAttempt = none ∧
     ((saveSettings ⟨some 20, some 20, some false⟩ none (some 30) true
         ⟨none, none, none, none, none, none⟩).status = .intervalRange ∨
      (saveSettings ⟨some 20, some 20, some false⟩ none (some 30) true
         ⟨none, none, none, none, none, none⟩).status = .durationRange)) :=
  ⟨Or.inl rfl,
   save_nan_rejected ⟨some 20, some 20, some false⟩ none (some 30) true
     ⟨none, none, none, none, none, none⟩ (Or.inl rfl)⟩

end Nudge





